import Mathlib

/-!
Shallow embedding of the EyeDentify attendance server's recognition core:
the face-matching service (`services/face_recognition_service.py`), the
entrance monitor's cooldown state machine (`entrance_monitor.py`), the
attendance-marking route logic (`routes/recognition.py`) and the photo
training route (`routes/users.py`).  External library calls
(`face_recognition.face_distance`, face detection, the SQL layer) are
modelled as explicit parameters or as pure state, per the spec's
external-interface boundary.
-/

namespace EyeDentify

/-- A face embedding: a numeric vector (128-dimensional in the reference);
we model components as rationals. -/
abbrev Embedding := List ℚ

/-- Metadata stored in parallel with each gallery encoding
(`known_face_metadata` entries: user_id, full_name, employee_id). -/
structure UserMeta where
  user_id : Nat
  full_name : String
  employee_id : String
deriving DecidableEq, Repr

/-- In-memory state of `FaceRecognitionService`: parallel lists of
encodings and metadata plus the distance threshold (default 0.6). -/
structure FaceRecognitionService where
  known_face_encodings : List Embedding
  known_face_metadata : List UserMeta
  confidence_threshold : ℚ
deriving DecidableEq, Repr

/-- `face_recognition.face_distance(known, probe)`: the list of distances
from the probe to every gallery encoding, in gallery order.  The metric
itself (`d`) is the external library's Euclidean distance, abstracted. -/
def face_distance (known : List Embedding) (probe : Embedding)
    (d : Embedding → Embedding → ℚ) : List ℚ :=
  known.map (fun e => d e probe)

/-- `np.argmin`: index of the first minimal element of the list
(0 on the empty list, matching no call site since the code guards). -/
def argminIdx : List ℚ → Nat
  | [] => 0
  | [_] => 0
  | x :: y :: xs =>
    let j := argminIdx (y :: xs)
    if (y :: xs).getD j 0 < x then j + 1 else 0

/-- Minimum of a list of rationals (0 on the empty list). -/
def listMin : List ℚ → ℚ
  | [] => 0
  | [x] => x
  | x :: y :: xs => min x (listMin (y :: xs))

/-- Outcome of the external detect-and-encode steps run on the input image
inside `identify_face` (face location, then encoding). -/
inductive DetectOutcome where
  | noFace
  | noEncoding
  | encoding (probe : Embedding)
deriving DecidableEq, Repr

/-- The distinct failure messages `identify_face` can return. -/
inductive IdentifyFailure where
  /-- message 'Face recognition model not trained' (empty gallery) -/
  | modelNotTrained
  /-- message 'No face detected in image' -/
  | noFaceDetected
  /-- message 'Could not generate encoding for detected face' -/
  | encodingFailed
  /-- message 'No known faces to compare against' -/
  | noKnownFaces
  /-- message 'Face not recognized with sufficient confidence (distance: …, threshold: …)' -/
  | belowThreshold (distance threshold : ℚ)
  /-- message 'Error during face recognition: …' (caught exception, e.g. a
  metadata index out of range) -/
  | internalError
deriving DecidableEq, Repr

/-- The dict returned by `FaceRecognitionService.identify_face`. -/
inductive RecognitionResult where
  | failure (reason : IdentifyFailure)
  | matched (user_id : Nat) (full_name : String) (employee_id : String)
      (confidence : ℚ) (distance : ℚ)
deriving DecidableEq, Repr

/-- `result['success']` of an `identify_face` return value. -/
def RecognitionResult.isSuccess : RecognitionResult → Bool
  | .failure _ => false
  | .matched _ _ _ _ _ => true

/-- `FaceRecognitionService.identify_face`, from the empty-gallery guard
onward; the image-processing steps are summarised by `detection` and the
library distance metric by `d`. -/
def identify_face (svc : FaceRecognitionService)
    (d : Embedding → Embedding → ℚ) (detection : DetectOutcome) :
    RecognitionResult :=
  if svc.known_face_encodings.length = 0 then
    .failure .modelNotTrained
  else
    match detection with
    | .noFace => .failure .noFaceDetected
    | .noEncoding => .failure .encodingFailed
    | .encoding probe =>
      let face_distances := face_distance svc.known_face_encodings probe d
      if face_distances.length = 0 then
        .failure .noKnownFaces
      else
        let best_match_index := argminIdx face_distances
        let best_distance := face_distances.getD best_match_index 0
        let confidence := 1 - best_distance
        if best_distance > svc.confidence_threshold then
          .failure (.belowThreshold best_distance svc.confidence_threshold)
        else
          match svc.known_face_metadata[best_match_index]? with
          | some u => .matched u.user_id u.full_name u.employee_id confidence best_distance
          | none => .failure .internalError

/-- A row of `User.get_all_facial_encodings()`: user id, the (deserialized)
encoding, and the joined user metadata. -/
structure EncodingRecord where
  user_id : Nat
  encoding : Embedding
  full_name : String
  employee_id : String
deriving DecidableEq, Repr

/-- `FaceRecognitionService.retrain_model`, with the database query result
passed in as `encodings_data`.  Returns the printed success flag and the
updated service.  On an empty roster it returns `false` before touching
the gallery. -/
def retrain_model (svc : FaceRecognitionService)
    (encodings_data : List EncodingRecord) : Bool × FaceRecognitionService :=
  if encodings_data.length = 0 then
    (false, svc)
  else
    (true,
      { svc with
        known_face_encodings := encodings_data.map (fun item => item.encoding)
        known_face_metadata := encodings_data.map (fun item =>
          ⟨item.user_id, item.full_name, item.employee_id⟩) })

/-! ## Entrance monitor (`entrance_monitor.py`)

Timestamps are rationals counting seconds; `cooldown_minutes` is the
constructor parameter (default 5); `last_recognition` is the
user_id → timestamp dict, modelled as an association list where insertion
conses and `List.lookup` returns the most recent binding. -/

/-- Mutable state of `EntranceMonitor` relevant to attendance. -/
structure EntranceMonitor where
  cooldown_minutes : ℚ
  last_recognition : List (Nat × ℚ)
deriving DecidableEq, Repr

/-- `EntranceMonitor.is_in_cooldown`: true when the current time is before
`last_recognition[user_id] + timedelta(minutes=cooldown_minutes)`. -/
def is_in_cooldown (m : EntranceMonitor) (now : ℚ) (user_id : Nat) : Bool :=
  match m.last_recognition.lookup user_id with
  | none => false
  | some last_time => decide (now < last_time + m.cooldown_minutes * 60)

/-- `EntranceMonitor.get_cooldown_remaining`: remaining cooldown seconds,
clamped at 0. -/
def get_cooldown_remaining (m : EntranceMonitor) (now : ℚ) (user_id : Nat) : ℚ :=
  match m.last_recognition.lookup user_id with
  | none => 0
  | some last_time => max 0 (last_time + m.cooldown_minutes * 60 - now)

/-- The cooldown message built by `mark_attendance`
(`f"Cooldown active: {int(remaining)}s remaining"`; `int` truncates, and
the remaining value is nonnegative, so floor agrees). -/
def cooldownMessage (remaining : ℚ) : String :=
  "Cooldown active: " ++ toString (Int.floor remaining) ++ "s remaining"

/-- `EntranceMonitor.mark_attendance`.  The call
`Attendance.mark_attendance(user_id)` goes to the external attendance
store and is modelled by the oracle `persist : user_id → (success, message)`.
Returns the `(success, message)` pair and the updated monitor state; the
`last_recognition` map is written only when the persistence call reports
success. -/
def mark_attendance (m : EntranceMonitor) (now : ℚ) (user_id : Nat)
    (persist : Nat → Bool × String) :
    (Bool × String) × EntranceMonitor :=
  if is_in_cooldown m now user_id then
    let remaining := get_cooldown_remaining m now user_id
    ((false, cooldownMessage remaining), m)
  else
    let r := persist user_id
    if r.1 then
      ((true, "Attendance marked successfully"),
        { m with last_recognition := (user_id, now) :: m.last_recognition })
    else
      ((false, r.2), m)

/-! ## Attendance store (`models.py`, class `Attendance`)

A row of the `attendance` table; the route only ever writes
`entry_time`, `exit_time`, `total_hours` and `status`.  Calendar dates are
naturals, timestamps rationals (seconds). -/

/-- One `attendance` row. -/
structure AttendanceRecord where
  id : Nat
  user_id : Nat
  date : Nat
  entry_time : Option ℚ
  exit_time : Option ℚ
  total_hours : Option ℚ
  status : String
deriving DecidableEq, Repr

/-- The `attendance` table plus the id sequence. -/
structure AttendanceDB where
  records : List AttendanceRecord
  next_id : Nat
deriving DecidableEq, Repr

/-- Row predicate for the `(user_id, date)` lookup. -/
def attKey (user_id date : Nat) (r : AttendanceRecord) : Bool :=
  r.user_id = user_id && r.date = date

/-- `Attendance.get_user_attendance_by_date`: `SELECT * FROM attendance
WHERE user_id = %s AND date = %s` (fetch_one). -/
def get_user_attendance_by_date (db : AttendanceDB) (user_id date : Nat) :
    Option AttendanceRecord :=
  db.records.find? (attKey user_id date)

/-- `Attendance.create_attendance`: INSERT with ON CONFLICT (user_id, date)
DO UPDATE SET entry_time, exit_time, status, RETURNING id. -/
def create_attendance (db : AttendanceDB) (user_id date : Nat)
    (entry_time exit_time : Option ℚ) (status : String) :
    Nat × AttendanceDB :=
  match db.records.find? (attKey user_id date) with
  | some r =>
    (r.id,
      { db with records := db.records.map (fun x =>
          if x.id = r.id then
            { x with entry_time := entry_time, exit_time := exit_time, status := status }
          else x) })
  | none =>
    (db.next_id,
      { records := db.records ++
          [⟨db.next_id, user_id, date, entry_time, exit_time, none, status⟩],
        next_id := db.next_id + 1 })

/-- `Attendance.update_attendance(id, {'exit_time': t})`. -/
def update_exit_time (db : AttendanceDB) (attendance_id : Nat) (t : ℚ) :
    AttendanceDB :=
  { db with records := db.records.map (fun x =>
      if x.id = attendance_id then { x with exit_time := some t } else x) }

/-- `Attendance.update_attendance(id, {'total_hours': h})`. -/
def update_total_hours (db : AttendanceDB) (attendance_id : Nat) (h : ℚ) :
    AttendanceDB :=
  { db with records := db.records.map (fun x =>
      if x.id = attendance_id then { x with total_hours := some h } else x) }

/-- Python `round(x, 2)` as used on total hours. -/
def round2 (q : ℚ) : ℚ := ((round (q * 100) : ℤ) : ℚ) / 100

/-- The dict returned by the route helper `mark_user_attendance`. -/
inductive MarkUserResult where
  | entry (attendance_id : Nat)
  | exit (attendance_id : Nat) (total_hours : ℚ)
  /-- the stored record had a NULL entry_time: the subtraction raises and
  the surrounding route handler returns a 500 (after the exit update) -/
  | error
deriving DecidableEq, Repr

/-- `mark_user_attendance` from `routes/recognition.py`: first detection of
the day creates the entry row, every later detection overwrites exit_time
and recomputes total_hours from the stored entry_time. -/
def mark_user_attendance (db : AttendanceDB) (user_id : Nat) (today : Nat)
    (current_time : ℚ) : MarkUserResult × AttendanceDB :=
  match get_user_attendance_by_date db user_id today with
  | none =>
    let created := create_attendance db user_id today (some current_time) none "present"
    (.entry created.1, created.2)
  | some existing_record =>
    let db1 := update_exit_time db existing_record.id current_time
    match existing_record.entry_time with
    | some entry_time =>
      let total_hours := (current_time - entry_time) / 3600
      (.exit existing_record.id (round2 total_hours),
        update_total_hours db1 existing_record.id (round2 total_hours))
    | none => (.error, db1)

/-! ## Audit log (`models.py`, class `RecognitionLog`) and the
`/identify` route (`routes/recognition.py`). -/

/-- One `recognition_logs` row (photo_path is always None at these call
sites and is omitted). -/
structure RecognitionLogEntry where
  user_id : Option Nat
  confidence : ℚ
  status : String
deriving DecidableEq, Repr

/-- `RecognitionLog.log_recognition`: INSERT one row. -/
def log_recognition (logs : List RecognitionLogEntry) (user_id : Option Nat)
    (confidence : ℚ) (status : String) : List RecognitionLogEntry :=
  logs ++ [⟨user_id, confidence, status⟩]

/-- Persistent state touched by the `/identify` route: the audit log table
and the attendance table. -/
structure RouteState where
  logs : List RecognitionLogEntry
  db : AttendanceDB
deriving DecidableEq, Repr

/-- The JSON body returned by the `/identify` route (both 200 shapes). -/
inductive RouteResponse where
  | rejected (reason : IdentifyFailure)
  | ok (user_id : Nat) (full_name : String) (employee_id : String)
      (attendance : MarkUserResult) (confidence : ℚ)
deriving DecidableEq, Repr

/-- The `/identify` route handler from the point the image is decoded:
reload the model if the gallery is empty (`reload` is the service state
the blob on disk would yield), run `identify_face`, append exactly one
audit row, and on success run `mark_user_attendance`. -/
def identify_route (svc reload : FaceRecognitionService)
    (d : Embedding → Embedding → ℚ) (detection : DetectOutcome)
    (st : RouteState) (today : Nat) (now : ℚ) :
    RouteResponse × RouteState :=
  let svc1 := if svc.known_face_encodings.length = 0 then reload else svc
  match identify_face svc1 d detection with
  | .failure reason =>
    (.rejected reason, { st with logs := log_recognition st.logs none 0 "failed" })
  | .matched user_id full_name employee_id confidence _ =>
    let logs1 := log_recognition st.logs (some user_id) confidence "success"
    let marked := mark_user_attendance st.db user_id today now
    (.ok user_id full_name employee_id marked.1 confidence,
      { logs := logs1, db := marked.2 })

/-- State threaded through `EntranceMonitor.process_frame`: the monitor's
own state plus the audit-log table (which that code path never writes). -/
structure MonitorRun where
  monitor : EntranceMonitor
  logs : List RecognitionLogEntry
deriving DecidableEq, Repr

/-- Body of the per-face loop in `process_frame`: on a successful
identification, check cooldown and (outside cooldown) mark attendance;
drawing calls have no state effect. -/
def process_frame_step (mon : EntranceMonitor) (now : ℚ)
    (persist : Nat → Bool × String) (result : RecognitionResult) :
    EntranceMonitor :=
  match result with
  | .matched user_id _ _ _ _ =>
    if is_in_cooldown mon now user_id then mon
    else (mark_attendance mon now user_id persist).2
  | .failure _ => mon

/-- `EntranceMonitor.process_frame`: detect faces (their count is
`face_count`), and for each detected face run `identify_face` on the whole
frame (summarised by `detection`) and the per-face branch.  No
`RecognitionLog` insert appears anywhere in this function. -/
def process_frame (run : MonitorRun) (svc : FaceRecognitionService)
    (d : Embedding → Embedding → ℚ) (face_count : Nat)
    (detection : DetectOutcome) (now : ℚ)
    (persist : Nat → Bool × String) : MonitorRun :=
  { monitor :=
      (List.range face_count).foldl
        (fun mon _ => process_frame_step mon now persist (identify_face svc d detection))
        run.monitor,
    logs := run.logs }

/-! ## Photo upload and training (`routes/users.py`, `upload_user_photos`)
plus the `facial_encodings` table (`models.py`, `User`). -/

/-- One uploaded file: whether its extension passes `allowed_file`, and
what `extract_face_encoding` yields on it (`none`: no face detected or
encoding failed, so the file is removed and not counted). -/
structure PhotoFile where
  allowed_ext : Bool
  encoding : Option Embedding
deriving DecidableEq, Repr

/-- The `facial_encodings` table: rows of (user_id, encoding);
photo paths are not needed by the claims. -/
structure FacialEncodingsTable where
  rows : List (Nat × Embedding)
deriving DecidableEq, Repr

/-- `User.save_facial_encodings`: delete the user's rows, insert the new
encodings in order. -/
def save_facial_encodings (store : FacialEncodingsTable) (user_id : Nat)
    (encodings : List Embedding) : FacialEncodingsTable :=
  ⟨store.rows.filter (fun p => !(p.1 == user_id)) ++
    encodings.map (fun e => (user_id, e))⟩

/-- `User.get_all_facial_encodings`: the table joined with user metadata
(`meta` gives full_name and employee_id per user id; all users active). -/
def get_all_facial_encodings (store : FacialEncodingsTable)
    (meta : Nat → String × String) : List EncodingRecord :=
  store.rows.map (fun p => ⟨p.1, p.2, (meta p.1).1, (meta p.1).2⟩)

/-- The encodings the upload loop keeps: files with an allowed extension
whose extraction produced an encoding, in upload order. -/
def accepted_encodings (files : List PhotoFile) : List Embedding :=
  files.filterMap (fun f => if f.allowed_ext then f.encoding else none)

/-- The responses of the `upload_user_photos` route. -/
inductive UploadResult where
  /-- 400 'At least 3 photos required for training' -/
  | tooFewPhotos
  /-- 404 'User not found' -/
  | userNotFound
  /-- 400 'Could not detect faces in enough photos. …' -/
  | tooFewEncodings
  /-- 200 with photos_count -/
  | ok (photos_count : Nat)
deriving DecidableEq, Repr

/-- `upload_user_photos`: reject batches with fewer than 3 files or fewer
than 3 usable encodings without touching any store; otherwise replace the
user's stored encodings and retrain the in-memory service from the table. -/
def upload_user_photos (store : FacialEncodingsTable)
    (svc : FaceRecognitionService) (meta : Nat → String × String)
    (user_id : Nat) (user_exists : Bool) (files : List PhotoFile) :
    UploadResult × FacialEncodingsTable × FaceRecognitionService :=
  if files.length < 3 then
    (.tooFewPhotos, store, svc)
  else if !user_exists then
    (.userNotFound, store, svc)
  else
    let encodings := accepted_encodings files
    if encodings.length < 3 then
      (.tooFewEncodings, store, svc)
    else
      let store1 := save_facial_encodings store user_id encodings
      let svc1 := (retrain_model svc (get_all_facial_encodings store1 meta)).2
      (.ok encodings.length, store1, svc1)

/-! ## Properties of `argminIdx` and `listMin` -/

theorem argminIdx_lt_length (xs : List ℚ) (h : xs ≠ []) :
    argminIdx xs < xs.length := by
  induction xs with
  | nil => exact absurd rfl h
  | cons x ys ih =>
    cases ys with
    | nil => simp [argminIdx]
    | cons y zs =>
      have hlt := ih (by simp)
      simp only [argminIdx]
      split
      · exact Nat.succ_lt_succ hlt
      · simp

theorem getD_argminIdx (xs : List ℚ) (h : xs ≠ []) :
    xs.getD (argminIdx xs) 0 = listMin xs := by
  induction xs with
  | nil => exact absurd rfl h
  | cons x ys ih =>
    cases ys with
    | nil => simp [argminIdx, listMin]
    | cons y zs =>
      have hih := ih (by simp)
      simp only [argminIdx, listMin]
      split
      · rename_i hlt
        rw [List.getD_cons_succ, hih]
        rw [hih] at hlt
        exact (min_eq_right (le_of_lt hlt)).symm
      · rename_i hge
        rw [List.getD_cons_zero]
        rw [hih] at hge
        exact (min_eq_left (not_lt.mp hge)).symm

theorem listMin_le_getD (xs : List ℚ) (i : Nat) (h : i < xs.length) :
    listMin xs ≤ xs.getD i 0 := by
  induction xs generalizing i with
  | nil => simp at h
  | cons x ys ih =>
    cases ys with
    | nil =>
      have hi : i = 0 := Nat.lt_one_iff.mp (by simpa using h)
      subst hi
      simp [listMin]
    | cons y zs =>
      cases i with
      | zero => simp [listMin]
      | succ k =>
        have hk : k < (y :: zs).length := by
          simpa using Nat.lt_of_succ_lt_succ h
        calc listMin (x :: y :: zs) ≤ listMin (y :: zs) := by
              simp [listMin]
          _ ≤ (y :: zs).getD k 0 := ih k hk
          _ = (x :: y :: zs).getD (k + 1) 0 := (List.getD_cons_succ).symm

theorem listMin_lt_getD_of_lt_argminIdx (xs : List ℚ) (j : Nat)
    (h : j < argminIdx xs) : listMin xs < xs.getD j 0 := by
  induction xs generalizing j with
  | nil => simp [argminIdx] at h
  | cons x ys ih =>
    cases ys with
    | nil => simp [argminIdx] at h
    | cons y zs =>
      simp only [argminIdx] at h
      split at h
      · rename_i hlt
        rw [getD_argminIdx (y :: zs) (by simp)] at hlt
        cases j with
        | zero =>
          rw [List.getD_cons_zero]
          simp only [listMin]
          exact lt_of_le_of_lt (min_le_right _ _) hlt
        | succ k =>
          have hk : k < argminIdx (y :: zs) := Nat.lt_of_succ_lt_succ h
          rw [List.getD_cons_succ]
          calc listMin (x :: y :: zs) ≤ listMin (y :: zs) := by
                simp [listMin]
            _ < (y :: zs).getD k 0 := ih k hk
      · simp at h

theorem face_distance_length (known : List Embedding) (probe : Embedding)
    (d : Embedding → Embedding → ℚ) :
    (face_distance known probe d).length = known.length := by
  simp [face_distance]

theorem face_distance_ne_nil (known : List Embedding) (probe : Embedding)
    (d : Embedding → Embedding → ℚ) (h : known ≠ []) :
    face_distance known probe d ≠ [] := by
  simp [face_distance, h]

/-- Shape of `identify_face` on the non-empty-gallery, face-found path:
the threshold test and result are driven by the minimum distance and the
first-minimal index. -/
theorem identify_face_encoding_eq (svc : FaceRecognitionService)
    (d : Embedding → Embedding → ℚ) (probe : Embedding)
    (hne : svc.known_face_encodings ≠ []) :
    identify_face svc d (.encoding probe) =
      (let ds := face_distance svc.known_face_encodings probe d
       if svc.confidence_threshold < listMin ds then
         .failure (.belowThreshold (listMin ds) svc.confidence_threshold)
       else
         match svc.known_face_metadata[argminIdx ds]? with
         | some u =>
           .matched u.user_id u.full_name u.employee_id (1 - listMin ds) (listMin ds)
         | none => .failure .internalError) := by
  have hlen0 : ¬ svc.known_face_encodings.length = 0 := by
    simpa [List.length_eq_zero] using hne
  have hds : face_distance svc.known_face_encodings probe d ≠ [] :=
    face_distance_ne_nil _ _ _ hne
  have hdslen : ¬ (face_distance svc.known_face_encodings probe d).length = 0 := by
    simpa [List.length_eq_zero] using hds
  have hmin : (face_distance svc.known_face_encodings probe d).getD
      (argminIdx (face_distance svc.known_face_encodings probe d)) 0 =
      listMin (face_distance svc.known_face_encodings probe d) :=
    getD_argminIdx _ hds
  simp only [identify_face, hlen0, if_false, hdslen, hmin, gt_iff_lt]

/-- C1: for every probe embedding and configured threshold, `identify_face`
accepts (returns a matched result) iff the minimum distance over the
gallery is at most the threshold; in particular a probe whose minimum
distance equals the threshold exactly is accepted.  Requires the service
invariant that metadata runs parallel to the encodings. -/
theorem identify_accepts_iff_min_distance_le
    (svc : FaceRecognitionService) (d : Embedding → Embedding → ℚ)
    (probe : Embedding)
    (hne : svc.known_face_encodings ≠ [])
    (hlen : svc.known_face_metadata.length = svc.known_face_encodings.length) :
    ((identify_face svc d (.encoding probe)).isSuccess = true ↔
      listMin (face_distance svc.known_face_encodings probe d) ≤
        svc.confidence_threshold) ∧
    (listMin (face_distance svc.known_face_encodings probe d) =
        svc.confidence_threshold →
      (identify_face svc d (.encoding probe)).isSuccess = true) := by
  have hds : face_distance svc.known_face_encodings probe d ≠ [] :=
    face_distance_ne_nil _ _ _ hne
  have hidx : argminIdx (face_distance svc.known_face_encodings probe d) <
      svc.known_face_metadata.length := by
    rw [hlen, ← face_distance_length svc.known_face_encodings probe d]
    exact argminIdx_lt_length _ hds
  have hmeta : svc.known_face_metadata[argminIdx
      (face_distance svc.known_face_encodings probe d)]? =
      some (svc.known_face_metadata.get ⟨argminIdx
        (face_distance svc.known_face_encodings probe d), hidx⟩) := by
    rw [List.getElem?_eq_getElem hidx]
    simp
  rw [identify_face_encoding_eq svc d probe hne]
  constructor
  · constructor
    · intro hs
      by_contra hgt
      simp only [not_le] at hgt
      simp [hgt, RecognitionResult.isSuccess] at hs
    · intro hle
      simp only [not_lt.mpr hle, if_false, hmeta, RecognitionResult.isSuccess]
  · intro heq
    simp only [not_lt.mpr (le_of_eq heq), if_false, hmeta,
      RecognitionResult.isSuccess]

/-- Computable absolute value on ℚ (kernel-reducible, unlike the lattice
`abs`). -/
def absQ (q : ℚ) : ℚ := if q < 0 then -q else q

/-- A concrete distance metric for witnesses: L1 distance on the zipped
components. -/
def distL1 : Embedding → Embedding → ℚ :=
  fun a b => ((a.zip b).map (fun p => absQ (p.1 - p.2))).sum

/-- A concrete one-entry service whose single gallery encoding sits at
distance exactly 0.6 (the default threshold) from the probe `[0]`. -/
def svcBoundary : FaceRecognitionService :=
  ⟨[[(3 : ℚ)/5]], [⟨7, "Ada", "E7"⟩], 3/5⟩

/-- C1 witness: a probe at distance exactly 0.6 from the only gallery
entry, with threshold 0.6, is accepted. -/
theorem identify_accepts_iff_min_distance_le_witness :
    (identify_face svcBoundary distL1 (.encoding [0])).isSuccess = true :=
  (identify_accepts_iff_min_distance_le svcBoundary distL1 [0]
      (by decide) (by decide)).2
    (by norm_num [svcBoundary, face_distance, distL1, absQ, listMin])

/-- C6: on a non-empty gallery, an accepted probe is matched to the
metadata entry at the first index of minimal distance (gallery order
breaks ties), with confidence 1 − (minimum distance) and the minimum
distance reported. -/
theorem identify_matches_first_minimal
    (svc : FaceRecognitionService) (d : Embedding → Embedding → ℚ)
    (probe : Embedding)
    (hne : svc.known_face_encodings ≠ [])
    (hlen : svc.known_face_metadata.length = svc.known_face_encodings.length)
    (hacc : listMin (face_distance svc.known_face_encodings probe d) ≤
      svc.confidence_threshold) :
    ∃ hi : argminIdx (face_distance svc.known_face_encodings probe d) <
        svc.known_face_metadata.length,
      identify_face svc d (.encoding probe) =
        .matched
          (svc.known_face_metadata.get ⟨_, hi⟩).user_id
          (svc.known_face_metadata.get ⟨_, hi⟩).full_name
          (svc.known_face_metadata.get ⟨_, hi⟩).employee_id
          (1 - listMin (face_distance svc.known_face_encodings probe d))
          (listMin (face_distance svc.known_face_encodings probe d)) ∧
      (face_distance svc.known_face_encodings probe d).getD
          (argminIdx (face_distance svc.known_face_encodings probe d)) 0 =
        listMin (face_distance svc.known_face_encodings probe d) ∧
      (∀ j, j < (face_distance svc.known_face_encodings probe d).length →
        listMin (face_distance svc.known_face_encodings probe d) ≤
          (face_distance svc.known_face_encodings probe d).getD j 0) ∧
      (∀ j, j < argminIdx (face_distance svc.known_face_encodings probe d) →
        listMin (face_distance svc.known_face_encodings probe d) <
          (face_distance svc.known_face_encodings probe d).getD j 0) := by
  have hds : face_distance svc.known_face_encodings probe d ≠ [] :=
    face_distance_ne_nil _ _ _ hne
  have hidx : argminIdx (face_distance svc.known_face_encodings probe d) <
      svc.known_face_metadata.length := by
    rw [hlen, ← face_distance_length svc.known_face_encodings probe d]
    exact argminIdx_lt_length _ hds
  refine ⟨hidx, ?_, getD_argminIdx _ hds, fun j hj => listMin_le_getD _ j hj,
    fun j hj => listMin_lt_getD_of_lt_argminIdx _ j hj⟩
  have hmeta : svc.known_face_metadata[argminIdx
      (face_distance svc.known_face_encodings probe d)]? =
      some (svc.known_face_metadata.get ⟨_, hidx⟩) := by
    rw [List.getElem?_eq_getElem hidx]
    simp
  rw [identify_face_encoding_eq svc d probe hne]
  simp only [not_lt.mpr hacc, if_false, hmeta]

/-- The spec's worked scenario: a two-identity gallery where the probe is
at distance 0.3 from identity 1's encoding and 0.8 from identity 2's. -/
def svcScenario : FaceRecognitionService :=
  ⟨[[(3 : ℚ)/10], [(4 : ℚ)/5]], [⟨1, "A", "E1"⟩, ⟨2, "B", "E2"⟩], 3/5⟩

/-- C6 witness: in the scenario gallery the probe matches identity 1 with
confidence 0.7 and distance 0.3. -/
theorem identify_matches_first_minimal_witness :
    identify_face svcScenario distL1 (.encoding [0]) =
      .matched 1 "A" "E1" (7/10) (3/10) := by
  obtain ⟨hi, heq, -, -, -⟩ :=
    identify_matches_first_minimal svcScenario distL1 [0] (by decide) (by decide)
      (by norm_num [svcScenario, face_distance, distL1, absQ, listMin])
  rw [heq]
  norm_num [svcScenario, face_distance, distL1, absQ, listMin, argminIdx]

/-- C8: with an empty gallery, `identify_face` reports the no-gallery
failure regardless of what the detection stage yields, and that reason is
distinct from the no-face and below-threshold reasons. -/
theorem identify_empty_gallery (svc : FaceRecognitionService)
    (d : Embedding → Embedding → ℚ)
    (hemp : svc.known_face_encodings = []) :
    (∀ detection, identify_face svc d detection = .failure .modelNotTrained) ∧
    IdentifyFailure.modelNotTrained ≠ IdentifyFailure.noFaceDetected ∧
    (∀ dist thr : ℚ,
      IdentifyFailure.modelNotTrained ≠ IdentifyFailure.belowThreshold dist thr) := by
  refine ⟨fun detection => ?_, by simp, fun dist thr => by simp⟩
  simp [identify_face, hemp]

/-- C8 witness: the empty-gallery service rejects a concrete probe with the
no-gallery reason. -/
theorem identify_empty_gallery_witness :
    identify_face ⟨[], [], 3/5⟩ distL1 (.encoding [0]) =
      .failure .modelNotTrained :=
  (identify_empty_gallery ⟨[], [], 3/5⟩ distL1 rfl).1 (.encoding [0])

/-- C10: when the roster query returns zero records, `retrain_model`
reports failure and leaves the gallery and metadata exactly as they were. -/
theorem retrain_model_empty_roster (svc : FaceRecognitionService) :
    retrain_model svc [] = (false, svc) := rfl

/-! ## Cooldown state machine lemmas -/

theorem mark_attendance_success_eq (m : EntranceMonitor) (now : ℚ) (X : Nat)
    (persist : Nat → Bool × String)
    (hnc : is_in_cooldown m now X = false)
    (hp : (persist X).1 = true) :
    mark_attendance m now X persist =
      ((true, "Attendance marked successfully"),
        { m with last_recognition := (X, now) :: m.last_recognition }) := by
  simp [mark_attendance, hnc, hp]

theorem is_in_cooldown_cons (m : EntranceMonitor) (X : Nat) (last T' : ℚ) :
    is_in_cooldown
        { m with last_recognition := (X, last) :: m.last_recognition } T' X =
      decide (T' < last + m.cooldown_minutes * 60) := by
  simp [is_in_cooldown, List.lookup]

theorem get_cooldown_remaining_cons (m : EntranceMonitor) (X : Nat)
    (last T' : ℚ) :
    get_cooldown_remaining
        { m with last_recognition := (X, last) :: m.last_recognition } T' X =
      max 0 (last + m.cooldown_minutes * 60 - T') := by
  simp [get_cooldown_remaining, List.lookup]

/-- C3: with the 5-minute cooldown, after an accepted attendance event for
identity X at time T, any event for X earlier than T + 300 seconds is
suppressed with no state change and the remaining time reported, while an
event at or after T + 300 seconds passes the cooldown check and (when
persistence succeeds) is accepted. -/
theorem cooldown_five_minutes
    (m : EntranceMonitor) (X : Nat) (T : ℚ) (persist : Nat → Bool × String)
    (hcd : m.cooldown_minutes = 5)
    (hnc : is_in_cooldown m T X = false)
    (hp : (persist X).1 = true) :
    (∀ T', T' < T + 300 →
      is_in_cooldown (mark_attendance m T X persist).2 T' X = true ∧
      get_cooldown_remaining (mark_attendance m T X persist).2 T' X =
        T + 300 - T' ∧
      mark_attendance (mark_attendance m T X persist).2 T' X persist =
        ((false, cooldownMessage (T + 300 - T')),
          (mark_attendance m T X persist).2)) ∧
    (∀ T', T + 300 ≤ T' →
      is_in_cooldown (mark_attendance m T X persist).2 T' X = false ∧
      ∀ persist2 : Nat → Bool × String, (persist2 X).1 = true →
        (mark_attendance (mark_attendance m T X persist).2 T' X persist2).1.1
          = true) := by
  have hm1 := mark_attendance_success_eq m T X persist hnc hp
  have hend : T + m.cooldown_minutes * 60 = T + 300 := by
    rw [hcd]; norm_num
  constructor
  · intro T' hT'
    have hic : is_in_cooldown (mark_attendance m T X persist).2 T' X = true := by
      rw [hm1, is_in_cooldown_cons, hend]
      exact decide_eq_true hT'
    have hrem : get_cooldown_remaining (mark_attendance m T X persist).2 T' X =
        T + 300 - T' := by
      rw [hm1, get_cooldown_remaining_cons, hend]
      exact max_eq_right (by linarith)
    refine ⟨hic, hrem, ?_⟩
    rw [mark_attendance, if_pos hic, hrem]
  · intro T' hT'
    have hic : is_in_cooldown (mark_attendance m T X persist).2 T' X = false := by
      rw [hm1, is_in_cooldown_cons, hend]
      exact decide_eq_false (not_lt.mpr hT')
    refine ⟨hic, fun persist2 hp2 => ?_⟩
    rw [mark_attendance_success_eq _ T' X persist2 hic hp2]

/-- C3 witness: identity 1 accepted at time 0; a second event at 180 s is
suppressed, a second event at 360 s passes cooldown. -/
theorem cooldown_five_minutes_witness :
    is_in_cooldown
        (mark_attendance ⟨5, []⟩ 0 1 (fun _ => (true, "ok"))).2 180 1 = true ∧
    is_in_cooldown
        (mark_attendance ⟨5, []⟩ 0 1 (fun _ => (true, "ok"))).2 360 1 = false := by
  have h := cooldown_five_minutes ⟨5, []⟩ 1 0 (fun _ => (true, "ok"))
    rfl rfl rfl
  exact ⟨(h.1 180 (by norm_num)).1, (h.2 360 (by norm_num)).1⟩

/-- C4: when the persistence call fails, `mark_attendance` reports the
failure to the caller with the store's message and leaves the monitor
state (in particular the cooldown map) unchanged, so later events see the
same cooldown status as before the failed write. -/
theorem persistence_failure_leaves_cooldown
    (m : EntranceMonitor) (now : ℚ) (X : Nat)
    (persist : Nat → Bool × String)
    (hnc : is_in_cooldown m now X = false)
    (hp : (persist X).1 = false) :
    mark_attendance m now X persist = ((false, (persist X).2), m) ∧
    ∀ T' Y, is_in_cooldown (mark_attendance m now X persist).2 T' Y =
      is_in_cooldown m T' Y := by
  have heq : mark_attendance m now X persist = ((false, (persist X).2), m) := by
    simp [mark_attendance, hnc, hp]
  exact ⟨heq, fun T' Y => by rw [heq]⟩

/-- C4 witness: a failing store call at time 0 for identity 1 is reported
and starts no cooldown. -/
theorem persistence_failure_leaves_cooldown_witness :
    mark_attendance ⟨5, []⟩ 0 1 (fun _ => (false, "db down")) =
      ((false, "db down"), ⟨5, []⟩) :=
  (persistence_failure_leaves_cooldown ⟨5, []⟩ 0 1
    (fun _ => (false, "db down")) rfl rfl).1

/-! ## Attendance day lifecycle (`mark_user_attendance`) -/

/-- The exit-time update leaves the `(user_id, date)` key of every row
unchanged, so the day lookup finds the same row, updated. -/
theorem find?_update_exit_time (db : AttendanceDB) (X D i : Nat) (t : ℚ) :
    get_user_attendance_by_date (update_exit_time db i t) X D =
      (get_user_attendance_by_date db X D).map
        (fun x => if x.id = i then { x with exit_time := some t } else x) := by
  unfold get_user_attendance_by_date update_exit_time
  rw [List.find?_map]
  have hp : (attKey X D ∘ fun x =>
      if x.id = i then { x with exit_time := some t } else x) = attKey X D := by
    funext x
    by_cases hx : x.id = i <;> simp [attKey, hx]
  rw [hp]

/-- Same for the total-hours update. -/
theorem find?_update_total_hours (db : AttendanceDB) (X D i : Nat) (h : ℚ) :
    get_user_attendance_by_date (update_total_hours db i h) X D =
      (get_user_attendance_by_date db X D).map
        (fun x => if x.id = i then { x with total_hours := some h } else x) := by
  unfold get_user_attendance_by_date update_total_hours
  rw [List.find?_map]
  have hp : (attKey X D ∘ fun x =>
      if x.id = i then { x with total_hours := some h } else x) = attKey X D := by
    funext x
    by_cases hx : x.id = i <;> simp [attKey, hx]
  rw [hp]

/-- A later detection on an existing day row: the result is type exit, the
exit time is overwritten with the new time, and total_hours is recomputed
from the stored entry time. -/
theorem mark_user_attendance_existing (db : AttendanceDB) (X D : Nat)
    (t : ℚ) (r : AttendanceRecord) (et : ℚ)
    (hf : get_user_attendance_by_date db X D = some r)
    (he : r.entry_time = some et) :
    mark_user_attendance db X D t =
      (.exit r.id (round2 ((t - et) / 3600)),
        update_total_hours (update_exit_time db r.id t) r.id
          (round2 ((t - et) / 3600))) := by
  simp only [mark_user_attendance, hf, he]

/-- The row the day lookup finds after a later detection. -/
theorem find?_after_existing (db : AttendanceDB) (X D : Nat)
    (t : ℚ) (r : AttendanceRecord) (et : ℚ)
    (hf : get_user_attendance_by_date db X D = some r)
    (he : r.entry_time = some et) :
    get_user_attendance_by_date (mark_user_attendance db X D t).2 X D =
      some { r with exit_time := some t,
                    total_hours := some (round2 ((t - et) / 3600)) } := by
  rw [mark_user_attendance_existing db X D t r et hf he]
  rw [find?_update_total_hours, find?_update_exit_time, hf]
  simp

/-- Folding a stream of detection times through `mark_user_attendance`
(each call reading the database state the previous one left). -/
def markMany (db : AttendanceDB) (X D : Nat) (ts : List ℚ) : AttendanceDB :=
  ts.foldl (fun db t => (mark_user_attendance db X D t).2) db

theorem markMany_cons (db : AttendanceDB) (X D : Nat) (t : ℚ) (ts : List ℚ) :
    markMany db X D (t :: ts) =
      markMany (mark_user_attendance db X D t).2 X D ts := rfl

/-- After any nonempty stream of later detections `ts ++ [tk]` on an
existing day row, the row has the original entry time and status, exit
time `tk`, and total hours recomputed from the original entry time. -/
theorem markMany_snoc_spec (X D : Nat) (et tk : ℚ) :
    ∀ (ts : List ℚ) (db : AttendanceDB) (r : AttendanceRecord),
      get_user_attendance_by_date db X D = some r →
      r.entry_time = some et →
      ∃ r', get_user_attendance_by_date (markMany db X D (ts ++ [tk])) X D =
          some r' ∧
        r'.user_id = r.user_id ∧ r'.date = r.date ∧
        r'.entry_time = some et ∧ r'.status = r.status ∧
        r'.exit_time = some tk ∧
        r'.total_hours = some (round2 ((tk - et) / 3600)) := by
  intro ts
  induction ts with
  | nil =>
    intro db r hf he
    refine ⟨{ r with exit_time := some tk, total_hours := some (round2 ((tk - et) / 3600)) }, ?_, rfl, rfl, he, rfl, rfl, rfl⟩
    simpa [markMany] using find?_after_existing db X D tk r et hf he
  | cons t ts ih =>
    intro db r hf he
    have hstep := find?_after_existing db X D t r et hf he
    have := ih (mark_user_attendance db X D t).2
      { r with exit_time := some t, total_hours := some (round2 ((t - et) / 3600)) } hstep he
    simpa [markMany_cons] using this

/-- The first detection of the day inserts a fresh present row with the
entry time and no exit. -/
theorem mark_user_attendance_first (db : AttendanceDB) (X D : Nat) (T1 : ℚ)
    (h0 : get_user_attendance_by_date db X D = none) :
    mark_user_attendance db X D T1 =
      (.entry db.next_id,
        { records := db.records ++
            [⟨db.next_id, X, D, some T1, none, none, "present"⟩],
          next_id := db.next_id + 1 }) := by
  have h0' : db.records.find? (attKey X D) = none := h0
  simp only [mark_user_attendance, create_attendance, h0, h0']

/-- The day lookup finds the freshly inserted row. -/
theorem find?_after_first (db : AttendanceDB) (X D : Nat) (T1 : ℚ)
    (h0 : get_user_attendance_by_date db X D = none) :
    get_user_attendance_by_date (mark_user_attendance db X D T1).2 X D =
      some ⟨db.next_id, X, D, some T1, none, none, "present"⟩ := by
  rw [mark_user_attendance_first db X D T1 h0]
  unfold get_user_attendance_by_date at h0 ⊢
  rw [List.find?_append, h0]
  simp [attKey]

/-- C2: for an identity X and day D with no existing row, the first
recognition at T1 creates the row (entry T1, status present, no exit, no
hours); every nonempty stream of subsequent recognitions ending at Tk
leaves the row with entry still T1, exit overwritten to Tk, and
total_hours = round₂((Tk − T1)/3600), recomputed from the original entry
time. -/
theorem attendance_day_lifecycle (db0 : AttendanceDB) (X D : Nat) (T1 : ℚ)
    (rest : List ℚ)
    (h0 : get_user_attendance_by_date db0 X D = none) :
    (∃ r, get_user_attendance_by_date (markMany db0 X D [T1]) X D = some r ∧
      r.user_id = X ∧ r.date = D ∧ r.entry_time = some T1 ∧
      r.exit_time = none ∧ r.total_hours = none ∧ r.status = "present") ∧
    (∀ ts tk, rest = ts ++ [tk] →
      ∃ r, get_user_attendance_by_date (markMany db0 X D (T1 :: rest)) X D =
          some r ∧
        r.user_id = X ∧ r.date = D ∧ r.entry_time = some T1 ∧
        r.status = "present" ∧ r.exit_time = some tk ∧
        r.total_hours = some (round2 ((tk - T1) / 3600))) := by
  constructor
  · refine ⟨⟨db0.next_id, X, D, some T1, none, none, "present"⟩, ?_,
      rfl, rfl, rfl, rfl, rfl, rfl⟩
    simpa [markMany] using find?_after_first db0 X D T1 h0
  · intro ts tk hrest
    subst hrest
    have hfirst := find?_after_first db0 X D T1 h0
    have := markMany_snoc_spec X D T1 tk ts
      (mark_user_attendance db0 X D T1).2
      ⟨db0.next_id, X, D, some T1, none, none, "present"⟩ hfirst rfl
    simpa [markMany_cons] using this

/-- C2 witness: identity 1 on day 1, recognized at times 0, 1800 and 3600;
the row ends with entry 0, exit 3600 and one hour total. -/
theorem attendance_day_lifecycle_witness :
    ∃ r, get_user_attendance_by_date
        (markMany ⟨[], 0⟩ 1 1 ((0 : ℚ) :: [1800, 3600])) 1 1 = some r ∧
      r.user_id = 1 ∧ r.date = 1 ∧ r.entry_time = some 0 ∧
      r.status = "present" ∧ r.exit_time = some 3600 ∧
      r.total_hours = some (round2 ((3600 - 0) / 3600)) :=
  (attendance_day_lifecycle ⟨[], 0⟩ 1 1 0 [1800, 3600] rfl).2 [1800] 3600 rfl

/-! ## Audit logging -/

/-- C5 counterexample: a frame processed by the entrance monitor with one
detected face and a successful, accepted identification (attendance is
marked, as the cooldown map shows) appends no audit-log entry at all — the
monitor invocation of the recognition pipeline skips the audit append the
claim says is never skipped. -/
theorem process_frame_skips_audit :
    (process_frame ⟨⟨5, []⟩, []⟩ svcScenario distL1 1 (.encoding [0]) 0
        (fun _ => (true, "ok"))).logs = [] ∧
    (process_frame ⟨⟨5, []⟩, []⟩ svcScenario distL1 1 (.encoding [0]) 0
        (fun _ => (true, "ok"))).monitor.last_recognition = [(1, 0)] := by
  constructor
  · rfl
  · have hid : identify_face svcScenario distL1 (.encoding [0]) =
        .matched 1 "A" "E1" (7/10) (3/10) := by
      rw [identify_face_encoding_eq svcScenario distL1 [0] (by decide)]
      norm_num [svcScenario, face_distance, distL1, absQ, listMin, argminIdx]
    simp [process_frame, process_frame_step, hid, is_in_cooldown,
      mark_attendance, List.range_succ]

/-- C5, amended: every invocation of the HTTP `/identify` route appends
exactly one audit entry — identity or null, confidence or 0, and a status —
whatever the recognition outcome; the entrance monitor's `process_frame`,
by contrast, appends none. -/
theorem audit_log_per_invocation :
    (∀ (svc reload : FaceRecognitionService) (d : Embedding → Embedding → ℚ)
        (detection : DetectOutcome) (st : RouteState) (today : Nat) (now : ℚ),
      ∃ e : RecognitionLogEntry,
        (identify_route svc reload d detection st today now).2.logs =
          st.logs ++ [e] ∧
        (∀ reason, identify_face
            (if svc.known_face_encodings.length = 0 then reload else svc)
            d detection = .failure reason → e = ⟨none, 0, "failed"⟩) ∧
        (∀ uid fn emp conf dist, identify_face
            (if svc.known_face_encodings.length = 0 then reload else svc)
            d detection = .matched uid fn emp conf dist →
          e = ⟨some uid, conf, "success"⟩)) ∧
    (∀ (run : MonitorRun) (svc : FaceRecognitionService)
        (d : Embedding → Embedding → ℚ) (face_count : Nat)
        (detection : DetectOutcome) (now : ℚ)
        (persist : Nat → Bool × String),
      (process_frame run svc d face_count detection now persist).logs =
        run.logs) := by
  constructor
  · intro svc reload d detection st today now
    cases h : identify_face
        (if svc.known_face_encodings.length = 0 then reload else svc)
        d detection with
    | failure reason =>
      refine ⟨⟨none, 0, "failed"⟩, ?_, fun _ _ => rfl, ?_⟩
      · simp only [identify_route, h, log_recognition]
      · intro uid fn emp conf dist hm
        cases hm
    | matched uid fn emp conf dist =>
      refine ⟨⟨some uid, conf, "success"⟩, ?_, ?_, ?_⟩
      · simp only [identify_route, h, log_recognition]
      · intro reason hm
        cases hm
      · intro uid' fn' emp' conf' dist' hm
        simp only [RecognitionResult.matched.injEq] at hm
        obtain ⟨h1, -, -, h4, -⟩ := hm
        rw [h1, h4]
  · intro run svc d face_count detection now persist
    rfl

/-- C5 amended-claim witness: a rejected probe on the route leaves exactly
the one failed audit row. -/
theorem audit_log_per_invocation_witness :
    (identify_route ⟨[], [], 3/5⟩ ⟨[], [], 3/5⟩ distL1 .noFace
        ⟨[], ⟨[], 0⟩⟩ 1 0).2.logs = [⟨none, 0, "failed"⟩] := by
  obtain ⟨e, he, hf, -⟩ := audit_log_per_invocation.1 ⟨[], [], 3/5⟩
    ⟨[], [], 3/5⟩ distL1 .noFace ⟨[], ⟨[], 0⟩⟩ 1 0
  rw [he, hf IdentifyFailure.modelNotTrained (by rfl)]
  rfl

/-! ## Training batch (`upload_user_photos`) -/

/-- The encodings a store holds for one user, in row order. -/
def user_rows (store : FacialEncodingsTable) (user_id : Nat) :
    List Embedding :=
  store.rows.filterMap (fun p => if p.1 == user_id then some p.2 else none)

/-- The rows a store holds for everyone else. -/
def other_rows (store : FacialEncodingsTable) (user_id : Nat) :
    List (Nat × Embedding) :=
  store.rows.filter (fun p => !(p.1 == user_id))

theorem user_rows_save (store : FacialEncodingsTable) (user_id : Nat)
    (encodings : List Embedding) :
    user_rows (save_facial_encodings store user_id encodings) user_id =
      encodings := by
  unfold user_rows save_facial_encodings
  rw [List.filterMap_append]
  have h1 : (store.rows.filter (fun p => !(p.1 == user_id))).filterMap
      (fun p => if p.1 == user_id then some p.2 else none) = [] := by
    rw [List.filterMap_eq_nil_iff]
    intro a ha
    have := List.of_mem_filter ha
    simp only [Bool.not_eq_true'] at this
    simp [this]
  have h2 : (encodings.map (fun e => (user_id, e))).filterMap
      (fun p => if p.1 == user_id then some p.2 else none) = encodings := by
    rw [List.filterMap_map]
    have : ((fun p : Nat × Embedding =>
        if p.1 == user_id then some p.2 else none) ∘
          fun e => (user_id, e)) = some := by
      funext e
      simp
    rw [this, List.filterMap_some]
  rw [h1, h2, List.nil_append]

theorem other_rows_save (store : FacialEncodingsTable) (user_id : Nat)
    (encodings : List Embedding) :
    other_rows (save_facial_encodings store user_id encodings) user_id =
      other_rows store user_id := by
  unfold other_rows save_facial_encodings
  rw [List.filter_append, List.filter_filter]
  have h2 : (encodings.map (fun e => (user_id, e))).filter
      (fun p => !(p.1 == user_id)) = [] := by
    rw [List.filter_eq_nil_iff]
    intro a ha
    obtain ⟨e, -, he⟩ := List.mem_map.mp ha
    simp [← he]
  rw [h2, List.append_nil]
  congr 1
  funext p
  cases h : p.1 == user_id <;> simp

/-- C7: with an existing user, a batch in which at least 3 photos yield
usable encodings trains successfully and replaces the user's stored
encodings with exactly the accepted ones (other users' rows untouched);
a batch with fewer than 3 usable encodings is rejected with a training
error and neither the stored encodings nor the in-memory service change. -/
theorem upload_training_batch (store : FacialEncodingsTable)
    (svc : FaceRecognitionService) (meta : Nat → String × String)
    (user_id : Nat) (files : List PhotoFile) :
    (3 ≤ (accepted_encodings files).length →
      ∃ st2 svc2,
        upload_user_photos store svc meta user_id true files =
          (.ok (accepted_encodings files).length, st2, svc2) ∧
        user_rows st2 user_id = accepted_encodings files ∧
        other_rows st2 user_id = other_rows store user_id) ∧
    ((accepted_encodings files).length < 3 →
      ∃ e, upload_user_photos store svc meta user_id true files =
          (e, store, svc) ∧
        (e = .tooFewPhotos ∨ e = .tooFewEncodings)) := by
  constructor
  · intro h3
    have hflen : ¬ files.length < 3 := by
      have hle : (accepted_encodings files).length ≤ files.length :=
        List.length_filterMap_le _ _
      omega
    refine ⟨save_facial_encodings store user_id (accepted_encodings files),
      (retrain_model svc (get_all_facial_encodings
        (save_facial_encodings store user_id (accepted_encodings files))
        meta)).2,
      ?_, user_rows_save store user_id (accepted_encodings files),
      other_rows_save store user_id (accepted_encodings files)⟩
    simp only [upload_user_photos, hflen, if_false, Bool.not_true,
      Bool.false_eq_true, accepted_encodings]
    rw [if_neg (by simpa [accepted_encodings] using not_lt.mpr h3)]
  · intro h3
    by_cases hflen : files.length < 3
    · exact ⟨.tooFewPhotos, by simp [upload_user_photos, hflen], Or.inl rfl⟩
    · refine ⟨.tooFewEncodings, ?_, Or.inr rfl⟩
      simp only [upload_user_photos, hflen, if_false, Bool.not_true,
        Bool.false_eq_true, accepted_encodings] at h3 ⊢
      simp [h3]

/-- A 5-photo batch where photos 2 and 4 yield no encoding: 3 accepted. -/
def filesGood : List PhotoFile :=
  [⟨true, some [1]⟩, ⟨true, none⟩, ⟨true, some [2]⟩, ⟨true, none⟩,
   ⟨true, some [3]⟩]

/-- A 5-photo batch where only 2 photos yield encodings. -/
def filesBad : List PhotoFile :=
  [⟨true, some [1]⟩, ⟨true, none⟩, ⟨true, none⟩, ⟨true, none⟩,
   ⟨true, some [3]⟩]

/-- C7 witness: the good batch trains and stores exactly its 3 accepted
encodings; the bad batch is rejected with the training error and changes
nothing. -/
theorem upload_training_batch_witness :
    (∃ st2 svc2,
      upload_user_photos ⟨[(2, [9])]⟩ ⟨[], [], 3/5⟩ (fun _ => ("U", "E")) 1
          true filesGood =
        (.ok (accepted_encodings filesGood).length, st2, svc2) ∧
      user_rows st2 1 = accepted_encodings filesGood ∧
      other_rows st2 1 = other_rows ⟨[(2, [9])]⟩ 1) ∧
    (∃ e, upload_user_photos ⟨[(2, [9])]⟩ ⟨[], [], 3/5⟩ (fun _ => ("U", "E"))
          1 true filesBad =
        (e, ⟨[(2, [9])]⟩, ⟨[], [], 3/5⟩) ∧
      (e = .tooFewPhotos ∨ e = .tooFewEncodings)) :=
  ⟨(upload_training_batch ⟨[(2, [9])]⟩ ⟨[], [], 3/5⟩ (fun _ => ("U", "E"))
      1 filesGood).1 (by decide),
   (upload_training_batch ⟨[(2, [9])]⟩ ⟨[], [], 3/5⟩ (fun _ => ("U", "E"))
      1 filesBad).2 (by decide)⟩

end EyeDentify
